import Mathlib

/-!
Shallow embedding of the gstreamer-cucumber test harness (src/lib.rs).

The harness drives a GStreamer pipeline from Gherkin steps.  We embed the
`World` state, the state-transition controller (`set_pipeline_state`), the
nested-property resolver (`find_element_property`), the property set/get
steps, frame sampling (`get_last_frame_on_element`, `get_last_frame`) and
the gst-validate integration (`activate_validate`, `validate_no_reports`).

Modelling conventions:
- Rust `Result::Err` returns (via `anyhow`) become explicit `err` variants;
  Rust panics and failed `debug_assert!` macros become explicit `panic*`
  variants, kept distinct from `err` because a panic aborts the step
  rather than returning a recoverable error.  Debug assertions are
  modelled as enabled, which is the `cargo test` default for this crate.
- GStreamer sequence numbers (`gst_util_seqnum_next`) come from a strictly
  increasing global counter; every freshly created event receives the next
  counter value.  We thread the counter value explicitly: `Seqnum::next()`
  returns `seq`, and the subsequent `FlushStart::new()` event is created
  with the next fresh value `seq + 1`.  The `FlushStop` and `Eos` builders
  override their events' sequence numbers with the explicitly supplied one.
- GLib/GStreamer string-to-value deserialization (`Value::deserialize`,
  `set_property_from_str`) is modelled by one canonical `deserialize`
  function per declared type; doubles are carried as exact rationals, the
  canonical value denoted by the decimal literal.
- The blocking bus read `bus.iter_timed(ClockTime::NONE)` is modelled over
  the finite list of messages the bus will deliver; if no terminating
  message (EOS or error) is ever delivered the real loop blocks forever,
  which we represent by the `blocked` outcome.
-/

namespace GstCucumber

/-- GStreamer lifecycle states reachable from the harness: `stop` ↦ Null,
`prepare` ↦ Ready, `pause` ↦ Paused, `play` ↦ Playing. -/
inductive GstState : Type where
  | null
  | ready
  | paused
  | playing
deriving DecidableEq, Repr

/-- Kinds of events sent by the drain protocol in `set_pipeline_state`. -/
inductive EventKind : Type where
  | flushStart
  | flushStop
  | eos
deriving DecidableEq, Repr

/-- A GStreamer event as observed on the pipeline: its kind and the
sequence number it carries. -/
structure Event : Type where
  kind : EventKind
  seqnum : Nat
deriving DecidableEq, Repr

/-- Bus messages relevant to the drain loop (`MessageView`): end-of-stream,
errors (with source path and description), and everything else, which the
loop discards. -/
inductive MessageView : Type where
  | eosMsg
  | errorMsg (src : String) (desc : String)
  | otherMsg
deriving DecidableEq, Repr

/-- Declared GLib value types (`glib::Type`) of object properties, as the
resolver and the set/get steps distinguish them. -/
inductive GType : Type where
  | tBool
  | tInt
  | tDouble
  | tString
  | tEnum (variants : List String)
  | tSample
  | tObject
deriving DecidableEq, Repr

/-- GLib values (`glib::Value`).  An object-typed value holds the nested
object's property list `(name, declared type, current value)`; a sample
value holds the sink's retained frame, if any, as an opaque identifier. -/
inductive GValue : Type where
  | vBool : Bool → GValue
  | vInt : Int → GValue
  | vDouble : Rat → GValue
  | vString : String → GValue
  | vEnum : String → GValue
  | vSample : Option Nat → GValue
  | vObject : List (String × GType × GValue) → GValue

/-- The property list of a GLib object: name, declared type, current value. -/
abbrev GProps : Type := List (String × GType × GValue)

/-- A `glib::ParamSpec` as used by the harness: the property's name and its
declared value type. -/
structure ParamSpec : Type where
  name : String
  valueType : GType
deriving DecidableEq, Repr

/-- Embeds `Object::find_property`: look a property up by name, returning its
param spec. -/
def findPropertyIn (props : GProps) (name : String) : Option ParamSpec :=
  (props.find? (fun p => p.1 == name)).map (fun p => ⟨p.1, p.2.1⟩)

/-- Embeds `Object::property_value`: the current value of a named property.  Only
called on names whose param spec was found; the fallback is unreachable in
the harness's use. -/
def propertyValue (props : GProps) (name : String) : GValue :=
  match props.find? (fun p => p.1 == name) with
  | some p => p.2.2
  | none => GValue.vString ""

/-- A named element inside the pipeline bin. -/
structure GstElement : Type where
  name : String
  props : GProps

/-- The pipeline handle: its current lifecycle state, the messages its bus
will deliver to the drain loop, whether `set_state` to a given target is
accepted, and the named elements of the bin. -/
structure Pipeline : Type where
  currentState : GstState
  busMessages : List MessageView
  setStateSucceeds : GstState → Bool
  elements : List GstElement

/-- Embeds `gst::Bin::by_name` (and `by_name_recurse_up`): find an element of the
bin by name and return it as an object (its property list). -/
def byName (pl : Pipeline) (name : String) : Option GProps :=
  (pl.elements.find? (fun e => e.name == name)).map (fun e => e.props)

/-- The gst-validate runner: it accumulates validation reports. -/
structure Runner : Type where
  reports : List String
deriving DecidableEq, Repr

/-- Embeds `Runner::reports_count`. -/
def Runner.reportsCount (r : Runner) : Nat := r.reports.length

/-- Embeds `Runner::printf`: the formatted summary of all accumulated reports. -/
def Runner.printf (r : Runner) : String := String.intercalate "\n" r.reports

/-- The `Validate` part of the `World`: optional runner, optional monitor
(modelled by presence only), and the accumulated textual validate
configuration not yet flushed to a file. -/
structure Validate : Type where
  runner : Option Runner
  monitor : Option Bool
  validateconfig : Option (List String)

/-- The cucumber `World`: the optional pipeline and the validate state. -/
structure World : Type where
  pipeline : Option Pipeline
  validate : Validate

/-- Embeds `World::new`: fresh world with no pipeline and no validate state. -/
def World.new : World := ⟨none, ⟨none, none, none⟩⟩

/-- Outcome of a step: normal return, recoverable `anyhow::Error` return,
a panic (abort), or blocking forever on the bus. -/
inductive StepResult : Type where
  | ok
  | err : String → StepResult
  | panicMsg : String → StepResult
  | blocked
deriving DecidableEq, Repr

/-- Maps a state-name string to the GStreamer target state, as matched in
`set_pipeline_state`; `none` for the names that make the code panic. -/
def stateFromName (state : String) : Option GstState :=
  match state with
  | "stop" => some GstState.null
  | "prepare" => some GstState.ready
  | "pause" => some GstState.paused
  | "play" => some GstState.playing
  | _ => none

/-- The drain loop over the bus: discard messages until the first EOS
(return `some false`: no error logged) or the first error message (log it
and return `some true`); `none` when the bus delivers no terminating
message, in which case the real blocking iterator never returns. -/
def drainBus : List MessageView → Option Bool
  | [] => none
  | MessageView.eosMsg :: _ => some false
  | MessageView.errorMsg _ _ :: _ => some true
  | MessageView.otherMsg :: rest => drainBus rest

/-- Everything observable about one `set_pipeline_state` call: the result,
the events sent to the pipeline, whether the drain loop read the bus,
whether it logged an error message, and the state change issued (if any). -/
structure TransitionResult : Type where
  result : StepResult
  events : List Event
  busRead : Bool
  errorLogged : Bool
  setStateIssued : Option GstState
deriving DecidableEq, Repr

/-- Embeds `World::set_pipeline_state`.  Here `validateEnabled` models
`cfg!(feature = "validate")`; `seq` is the current value of the global
sequence-number counter, so `Seqnum::next()` yields `seq` and the next
freshly created event (`FlushStart::new()`) carries `seq + 1`. -/
def set_pipeline_state (w : World) (validateEnabled : Bool) (seq : Nat)
    (state : String) : TransitionResult :=
  match w.pipeline with
  | none => ⟨StepResult.err "Pipeline not configured yet", [], false, false, none⟩
  | some pl =>
    match stateFromName state with
    | none => ⟨StepResult.panicMsg ("Invalid state name: " ++ state), [], false, false, none⟩
    | some target =>
      if target = GstState.null then
        if pl.currentState = target then
          ⟨StepResult.ok, [], false, false, none⟩
        else
          let flush := validateEnabled
          let seqnum := seq
          let events :=
            (if flush then
              [⟨EventKind.flushStart, seq + 1⟩, ⟨EventKind.flushStop, seqnum⟩]
             else []) ++ [⟨EventKind.eos, seqnum⟩]
          match drainBus pl.busMessages with
          | none => ⟨StepResult.blocked, events, true, false, none⟩
          | some errorLogged =>
            ⟨(if pl.setStateSucceeds target then StepResult.ok
              else StepResult.err "Unable to set pipeline state"),
             events, true, errorLogged, some target⟩
      else
        ⟨(if pl.setStateSucceeds target then StepResult.ok
          else StepResult.err "Unable to set pipeline state"),
         [], false, false, some target⟩

/-- Whether every event in the list carries the same sequence number as the
first one. -/
def sameSeqnum : List Event → Bool
  | [] => true
  | e :: rest => rest.all (fun e2 => e2.seqnum == e.seqnum)

/-- Outcome of `World::find_element_property`.  `ok` carries the returned
`(ParamSpec, Object)` pair; `err` is the recoverable `anyhow::Error`
return; the `panic*` variants are the aborts the function performs itself:
`panicNotFound token` for a missing element or property (message
`Couldn't find element {token}`), `panicInvalidSpec` for the failed debug
assertion on a non-object property followed by more tokens, and
`panicMalformed path` for the final `Couldn't find object property`
abort. -/
inductive ResolveResult : Type where
  | ok : ParamSpec → GProps → ResolveResult
  | err : String → ResolveResult
  | panicNotFound : String → ResolveResult
  | panicInvalidSpec : String → ResolveResult
  | panicMalformed : String → ResolveResult

/-- A recoverable error result (`Err` return), as opposed to a panic. -/
def ResolveResult.isRecoverableErr : ResolveResult → Bool
  | ResolveResult.err _ => true
  | _ => false

/-- Extract the object held by an object-typed property value.  GLib
guarantees that a property whose declared type is an object type holds an
object value, so the fallback is unreachable on well-typed objects. -/
def asObjectProps : GValue → GProps
  | GValue.vObject ps => ps
  | _ => []

/-- The token loop of `World::find_element_property`, with the running
`pspec`/`obj` option state.  While `obj` is unset, a token is looked up as
an element of the pipeline bin; afterwards it is looked up as a property
of the current object, hopping into object-typed properties (clearing the
pending pspec) and keeping the owning object for leaf properties.  With
tokens exhausted, `(Some pspec, Some obj)` is the success case and
anything else aborts with `Couldn't find object property`. -/
def resolveLoop (path : String) (pl : Pipeline) :
    List String → Option ParamSpec → Option GProps → ResolveResult
  | [], pspec, obj =>
    match pspec, obj with
    | some ps, some o => ResolveResult.ok ps o
    | _, _ => ResolveResult.panicMalformed path
  | token :: rest, pspec, obj =>
    match obj with
    | some o =>
      if pspec.isSome then ResolveResult.panicInvalidSpec path
      else
        match findPropertyIn o token with
        | none => ResolveResult.panicNotFound token
        | some tmpspec =>
          if tmpspec.valueType = GType.tObject then
            resolveLoop path pl rest none
              (some (asObjectProps (propertyValue o token)))
          else
            resolveLoop path pl rest (some tmpspec) (some o)
    | none =>
      match byName pl token with
      | none => ResolveResult.panicNotFound token
      | some el => resolveLoop path pl rest none (some el)

/-- Tokenizer worker: split a character list on every occurrence of the
two-character delimiter `::`, accumulating the current token in reverse. -/
def splitTokensGo : List Char → List Char → List String
  | [], acc => [String.mk acc.reverse]
  | ':' :: ':' :: rest, acc => String.mk acc.reverse :: splitTokensGo rest []
  | c :: rest, acc => splitTokensGo rest (c :: acc)

/-- Embeds `propname.split("::")`: the token list of a property path.  Like the
Rust splitter, an empty input yields one empty token and a trailing
delimiter yields a trailing empty token. -/
def splitTokens (s : String) : List String :=
  splitTokensGo s.data []

/-- Embeds `World::find_element_property`: split the path on `::` and run the
token loop, after requiring a configured pipeline. -/
def find_element_property (w : World) (propname : String) : ResolveResult :=
  match w.pipeline with
  | none => ResolveResult.err "Pipeline not configured yet"
  | some pl => resolveLoop propname pl (splitTokens propname) none none

/-- Embeds `gst_value_deserialize` for booleans: the accepted spellings, case
insensitively. -/
def parseBool (s : String) : Option Bool :=
  let l := String.mk (s.data.map Char.toLower)
  if l == "true" || l == "t" || l == "yes" || l == "1" then some true
  else if l == "false" || l == "f" || l == "no" || l == "0" then some false
  else none

/-- Digit run → number; `none` on an empty run or any non-digit. -/
def digitsToNatGo : List Char → Nat → Option Nat
  | [], n => some n
  | c :: rest, n =>
    if c.isDigit then digitsToNatGo rest (n * 10 + (c.toNat - '0'.toNat))
    else none

/-- A non-empty all-digit character run parsed as a natural number. -/
def digitsToNat : List Char → Option Nat
  | [] => none
  | c :: rest => digitsToNatGo (c :: rest) 0

/-- Integer literal with optional sign, as `gst_value_deserialize` accepts
for integer-typed properties. -/
def parseInt (s : String) : Option Int :=
  match s.data with
  | '-' :: rest => (digitsToNat rest).map (fun n => -(n : Int))
  | '+' :: rest => (digitsToNat rest).map (fun n => (n : Int))
  | cs => (digitsToNat cs).map (fun n => (n : Int))

/-- Decimal literal → exact rational: the canonical numeric value denoted
by a double's textual representation (optional sign, integer part,
optional fractional part). -/
def parseDouble (s : String) : Option Rat :=
  let neg := match s.data with | '-' :: _ => true | _ => false
  let body := if neg then s.data.drop 1 else s.data
  let signed : Rat → Rat := fun q => if neg then -q else q
  match body.span (fun c => c != '.') with
  | (ip, []) => (digitsToNat ip).map (fun n => signed (n : Rat))
  | (ip, _dot :: fp) =>
    match digitsToNat ip, digitsToNat fp with
    | some i, some f =>
      some (signed ((i : Rat) + (f : Rat) / ((10 : Rat) ^ fp.length)))
    | _, _ => none

/-- Embeds `glib::Value::deserialize` (and the parsing side of
`set_property_from_str`): parse a string in a declared type's canonical
textual representation.  Sample- and object-typed values have no string
form. -/
def deserialize (s : String) : GType → Option GValue
  | GType.tBool => (parseBool s).map GValue.vBool
  | GType.tInt => (parseInt s).map GValue.vInt
  | GType.tDouble => (parseDouble s).map GValue.vDouble
  | GType.tString => some (GValue.vString s)
  | GType.tEnum variants =>
    if variants.contains s then some (GValue.vEnum s) else none
  | GType.tSample => none
  | GType.tObject => none

/-- Embeds `glib::Value::compare … == Ordering::Equal`: canonical value equality.
Scalar values compare by value; samples and objects are not supported by
value comparison (the harness never compares them). -/
def valueCompareEq : GValue → GValue → Bool
  | GValue.vBool a, GValue.vBool b => decide (a = b)
  | GValue.vInt a, GValue.vInt b => decide (a = b)
  | GValue.vDouble a, GValue.vDouble b => decide (a = b)
  | GValue.vString a, GValue.vString b => decide (a = b)
  | GValue.vEnum a, GValue.vEnum b => decide (a = b)
  | _, _ => false

/-- Embeds `Object::set_property_from_str` at the owning object: parse the string
in the property's declared type and store the parsed value.  A string
that does not parse leaves the stored value unchanged. -/
def setPropertyFromStr (props : GProps) (name value : String) : GProps :=
  props.map (fun p =>
    if p.1 == name then
      match deserialize value p.2.1 with
      | some v => (p.1, p.2.1, v)
      | none => p
    else p)

/-- The comparison performed by the `Property … equals …` step after
resolution: deserialize the expected string with the handle's param spec
type (`none` models the panicking `unwrap` on a string that does not
parse) and compare canonically with the object's current value. -/
def get_property_cmp (props : GProps) (pspec : ParamSpec) (value : String) :
    Option Bool :=
  (deserialize value pspec.valueType).map
    (fun v => valueCompareEq v (propertyValue props pspec.name))

/-- Outcome of frame sampling: `ok` carries `Ok(Option<Sample>)` (with
`none` the explicit "no frame yet" result); `err` is a recoverable
`anyhow::Error`. -/
inductive FrameOutcome : Type where
  | ok : Option Nat → FrameOutcome
  | err : String → FrameOutcome
deriving DecidableEq, Repr

/-- Whether a frame-sampling outcome is an error. -/
def FrameOutcome.isErr : FrameOutcome → Bool
  | FrameOutcome.err _ => true
  | _ => false

/-- Embeds `element.property::<bool>(name)`, with a fallback for the ill-typed
case in which the real call would abort (excluded by the well-typedness
hypotheses of the theorems below). -/
def propertyBool (props : GProps) (name : String) : Bool :=
  match propertyValue props name with
  | GValue.vBool b => b
  | _ => false

/-- Embeds `element.property::<Option<gst::Sample>>("last-sample")`, with the same
well-typedness convention. -/
def propertySample (props : GProps) (name : String) : Option Nat :=
  match propertyValue props name with
  | GValue.vSample s => s
  | _ => none

/-- Embeds `get_last_frame_on_element`: read the `enable-last-sample` capability
flag (absent property counts as `false`, after logging an error); bail
with a configuration error when it is not `true`; otherwise return the
retained `last-sample`, which may be absent. -/
def get_last_frame_on_element (element : GstElement) : FrameOutcome :=
  let enableLastSample :=
    if (findPropertyIn element.props "enable-last-sample").isSome then
      propertyBool element.props "enable-last-sample"
    else
      false
  if !enableLastSample then
    FrameOutcome.err
      ("Property `enable-last-sample` not `true` on: " ++ element.name ++
       " - you need to set it when defining the pipeline")
  else
    FrameOutcome.ok (propertySample element.props "last-sample")

/-- Embeds `get_last_frame`: require a configured pipeline, find the sink element
by name, and sample it. -/
def get_last_frame (w : World) (elementName : String) : FrameOutcome :=
  match w.pipeline with
  | none => FrameOutcome.err "Pipeline not configured yet"
  | some pl =>
    match byName pl elementName with
    | none => FrameOutcome.err ("Could not find element: " ++ elementName)
    | some props => get_last_frame_on_element ⟨elementName, props⟩

/-- Outcome of `activate_validate`: success, recoverable error return, or
the failed debug assertion on a second activation (message
`Validate has already been activated`). -/
inductive ActivateOutcome : Type where
  | ok
  | err : String → ActivateOutcome
  | panicAlready
deriving DecidableEq, Repr

/-- Embeds `activate_validate`: abort if a runner is already installed; otherwise
flush any pending configuration, create and install a fresh runner, then
require the pipeline (error return if unset — note the runner stays
installed) and attach a monitor to it. -/
def activate_validate (w : World) : ActivateOutcome × World :=
  if w.validate.runner.isSome then
    (ActivateOutcome.panicAlready, w)
  else
    let w1 : World :=
      { w with validate :=
        { w.validate with runner := some ⟨[]⟩, validateconfig := none } }
    match w1.pipeline with
    | none => (ActivateOutcome.err "Pipeline not configured yet", w1)
    | some _ =>
      (ActivateOutcome.ok,
       { w1 with validate := { w1.validate with monitor := some true } })

/-- Outcome of `validate_no_reports`: success, or one of the two failed
debug assertions. -/
inductive AssertOutcome : Type where
  | ok
  | panicNotActivated : String → AssertOutcome
  | panicReports : String → AssertOutcome
deriving DecidableEq, Repr

/-- Embeds `validate_no_reports`: abort with `Validate hasn't been activated`
when no runner is installed; otherwise pass exactly when the runner's
report count is zero, aborting with the formatted report summary
otherwise. -/
def validate_no_reports (w : World) : AssertOutcome :=
  match w.validate.runner with
  | none => AssertOutcome.panicNotActivated "Validate hasn't been activated"
  | some runner =>
    if runner.reportsCount = 0 then AssertOutcome.ok
    else AssertOutcome.panicReports ("Reported issues: " ++ runner.printf)


/-! Concrete instances used by witnesses and counterexamples. -/

def plPlaying : Pipeline :=
  { currentState := GstState.playing
    busMessages := [MessageView.otherMsg, MessageView.eosMsg]
    setStateSucceeds := fun _ => true
    elements := [] }

def wPlaying : World := ⟨some plPlaying, ⟨none, none, none⟩⟩

def plStopped : Pipeline := { plPlaying with currentState := GstState.null }

def wStopped : World := ⟨some plStopped, ⟨none, none, none⟩⟩

def plWithEl : Pipeline := { plPlaying with elements := [⟨"src0", []⟩] }

def wWithEl : World := ⟨some plWithEl, ⟨none, none, none⟩⟩

def plErr : Pipeline :=
  { currentState := GstState.playing
    busMessages := [MessageView.otherMsg, MessageView.errorMsg "src" "boom"]
    setStateSucceeds := fun _ => true
    elements := [] }

def wErr : World := ⟨some plErr, ⟨none, none, none⟩⟩

def sinkEl : GstElement :=
  ⟨"sink", [("enable-last-sample", GType.tBool, GValue.vBool true),
            ("last-sample", GType.tSample, GValue.vSample none)]⟩

def muteProps : GProps := [("mute", GType.tBool, GValue.vBool false)]

def runnerTwo : Runner := ⟨["a", "b"]⟩

def wRunner : World := ⟨none, ⟨some runnerTwo, none, none⟩⟩

/-! Helper lemmas. -/

/-- Setting a property from a string that parses in its declared type
stores exactly the parsed value at that property. -/
theorem setPropertyFromStr_propertyValue (props : GProps) (name value : String)
    (t : GType) (v : GValue)
    (hfind : findPropertyIn props name = some ⟨name, t⟩)
    (hparse : deserialize value t = some v) :
    propertyValue (setPropertyFromStr props name value) name = v := by
  induction props with
  | nil => simp [findPropertyIn] at hfind
  | cons p rest ih =>
    by_cases hp : p.1 == name
    · have hfind' : (⟨p.1, p.2.1⟩ : ParamSpec) = ⟨name, t⟩ := by
        simpa [findPropertyIn, List.find?_cons_of_pos, hp] using hfind
      have ht : p.2.1 = t := congrArg ParamSpec.valueType hfind'
      simp only [setPropertyFromStr, List.map_cons, hp, if_pos, ht, hparse]
      simp [propertyValue, List.find?_cons_of_pos, hp]
    · have hfind' : findPropertyIn rest name = some ⟨name, t⟩ := by
        simpa [findPropertyIn, List.find?_cons_of_neg, hp] using hfind
      have := ih hfind'
      simp only [setPropertyFromStr, List.map_cons, hp, if_neg]
      simpa [propertyValue, List.find?_cons_of_neg, hp, setPropertyFromStr] using this

/-- Every value produced by `deserialize` is a scalar, and canonical value
comparison is reflexive on scalars. -/
theorem valueCompareEq_refl_of_deserialize (value : String) (t : GType) (v : GValue)
    (h : deserialize value t = some v) : valueCompareEq v v = true := by
  cases t with
  | tBool =>
    obtain ⟨b, -, rfl⟩ := Option.map_eq_some'.mp h
    simp [valueCompareEq]
  | tInt =>
    obtain ⟨i, -, rfl⟩ := Option.map_eq_some'.mp h
    simp [valueCompareEq]
  | tDouble =>
    obtain ⟨q, -, rfl⟩ := Option.map_eq_some'.mp h
    simp [valueCompareEq]
  | tString =>
    simp only [deserialize, Option.some.injEq] at h
    subst h
    simp [valueCompareEq]
  | tEnum variants =>
    simp only [deserialize] at h
    split at h
    · simp only [Option.some.injEq] at h
      subst h
      simp [valueCompareEq]
    · exact absurd h (by simp)
  | tSample => exact absurd h (by simp [deserialize])
  | tObject => exact absurd h (by simp [deserialize])

/-- With no runner installed yet, `activate_validate` installs a fresh
(empty) runner in the resulting world, whether or not a pipeline is
configured. -/
theorem activate_validate_inserts (w : World)
    (hr : w.validate.runner.isSome = false) :
    (activate_validate w).2.validate.runner = some ⟨[]⟩ := by
  unfold activate_validate
  rw [if_neg (by simp [hr])]
  dsimp only
  cases hp : w.pipeline <;> rfl

/-- With a runner already installed, `activate_validate` aborts on its
debug assertion. -/
theorem activate_validate_some (w : World)
    (h : w.validate.runner.isSome = true) :
    (activate_validate w).1 = ActivateOutcome.panicAlready := by
  unfold activate_validate
  rw [if_pos h]

/-! Claim theorems. -/

/-- C1 (counterexample): with a configured, playing pipeline and the
validate feature enabled, stopping sends exactly flush-start, flush-stop
and end-of-stream in that order, but the three events do NOT all carry
the same sequence identifier: flush-start is created without the drain's
sequence number and receives a fresh one. -/
theorem stop_drain_shared_seqnum_cex :
    (set_pipeline_state wPlaying true 0 "stop").events =
      [⟨EventKind.flushStart, 1⟩, ⟨EventKind.flushStop, 0⟩, ⟨EventKind.eos, 0⟩] ∧
    sameSeqnum (set_pipeline_state wPlaying true 0 "stop").events = false :=
  ⟨rfl, rfl⟩

/-- C1 (amended): when the pipeline is configured and not already stopped
and the validate feature is enabled, the transition to Stopped emits
exactly three events in order — flush-start, flush-stop, end-of-stream —
where flush-stop and end-of-stream share the single drain sequence
identifier while flush-start carries a distinct, freshly allocated one. -/
theorem stop_drain_event_order (w : World) (pl : Pipeline) (seq : Nat)
    (hw : w.pipeline = some pl) (hne : pl.currentState ≠ GstState.null) :
    (set_pipeline_state w true seq "stop").events =
      [⟨EventKind.flushStart, seq + 1⟩, ⟨EventKind.flushStop, seq⟩,
       ⟨EventKind.eos, seq⟩] ∧
    seq + 1 ≠ seq := by
  refine ⟨?_, by omega⟩
  unfold set_pipeline_state
  rw [hw]
  have hsf : stateFromName "stop" = some GstState.null := rfl
  rw [hsf]
  dsimp only
  rw [if_pos rfl, if_neg hne]
  cases hdb : drainBus pl.busMessages <;> rfl

theorem stop_drain_event_order_witness :
    (set_pipeline_state wPlaying true 0 "stop").events =
      [⟨EventKind.flushStart, 1⟩, ⟨EventKind.flushStop, 0⟩, ⟨EventKind.eos, 0⟩] ∧
    0 + 1 ≠ 0 :=
  stop_drain_event_order wPlaying plPlaying 0 rfl (by decide)

/-- C2 (counterexample): resolving a path whose first token names no
element of the pipeline aborts with the `Couldn't find element` panic at
that token; the result is not a recoverable error return, contradicting
the claim that resolution returns a recoverable NotFound error. -/
theorem resolve_notfound_recoverable_cex :
    find_element_property wPlaying "videosink" =
      ResolveResult.panicNotFound "videosink" ∧
    ResolveResult.isRecoverableErr (find_element_property wPlaying "videosink") =
      false :=
  ⟨rfl, rfl⟩

/-- C2 (amended): at every resolution step — whether looking the token up
as a pipeline element or as a property of the current object — a token
the current object does not expose makes resolution abort with the
`Couldn't find element` panic naming exactly that token; the panic is
distinguishable from a type error by its message but is an abort, not a
recoverable error result. -/
theorem resolve_notfound_panics (path token : String) (rest : List String)
    (o : GProps) (pl : Pipeline)
    (h1 : byName pl token = none) (h2 : findPropertyIn o token = none) :
    resolveLoop path pl (token :: rest) none none =
      ResolveResult.panicNotFound token ∧
    resolveLoop path pl (token :: rest) none (some o) =
      ResolveResult.panicNotFound token ∧
    ResolveResult.isRecoverableErr (ResolveResult.panicNotFound token) = false ∧
    (∀ w propname, w.pipeline = some pl → splitTokens propname = token :: rest →
      find_element_property w propname = ResolveResult.panicNotFound token) := by
  refine ⟨?_, ?_, rfl, ?_⟩
  · unfold resolveLoop
    rw [h1]
  · unfold resolveLoop
    dsimp only
    rw [h2]
    rfl
  · intro w propname hw hsplit
    unfold find_element_property
    rw [hw, hsplit]
    unfold resolveLoop
    rw [h1]

theorem resolve_notfound_panics_witness :
    find_element_property wPlaying "videosink" =
      ResolveResult.panicNotFound "videosink" :=
  (resolve_notfound_panics "videosink" "videosink" [] [] plPlaying rfl rfl).2.2.2
    wPlaying "videosink" rfl rfl

/-- C3: resolution that exhausts its tokens while an object hop is current
and no terminal attribute is pending aborts with the
`Couldn't find object property` (malformed path) failure; in particular a
single-token path naming only an element of the pipeline fails this way. -/
theorem resolve_malformed_path (path : String) (o : GProps) (pl : Pipeline) :
    resolveLoop path pl [] none (some o) = ResolveResult.panicMalformed path ∧
    (∀ w name el, w.pipeline = some pl → splitTokens name = [name] →
      byName pl name = some el →
      find_element_property w name = ResolveResult.panicMalformed name) := by
  refine ⟨rfl, ?_⟩
  intro w name el hw hsplit hel
  unfold find_element_property
  rw [hw, hsplit]
  unfold resolveLoop
  dsimp only
  rw [hel]
  rfl

theorem resolve_malformed_path_witness :
    find_element_property wWithEl "src0" = ResolveResult.panicMalformed "src0" :=
  (resolve_malformed_path "src0" [] plWithEl).2 wWithEl "src0" [] rfl rfl rfl

/-- C4: requesting Stopped when the pipeline is already at Stopped returns
success immediately: no event is sent, the bus is not read, nothing is
logged and no state change is issued. -/
theorem stop_idempotent (w : World) (pl : Pipeline) (v : Bool) (seq : Nat)
    (hw : w.pipeline = some pl) (hnull : pl.currentState = GstState.null) :
    set_pipeline_state w v seq "stop" =
      ⟨StepResult.ok, [], false, false, none⟩ := by
  unfold set_pipeline_state
  rw [hw]
  have hsf : stateFromName "stop" = some GstState.null := rfl
  rw [hsf]
  dsimp only
  rw [if_pos rfl, if_pos hnull]

theorem stop_idempotent_witness :
    set_pipeline_state wStopped true 0 "stop" =
      ⟨StepResult.ok, [], false, false, none⟩ :=
  stop_idempotent wStopped plStopped true 0 rfl rfl

/-- C5: frame sampling on a sink errors exactly when the boolean
`enable-last-sample` capability flag is absent or false; when the flag is
true the sink's retained sample is returned as a non-error result, with
`none` as the explicit "no frame yet" value. -/
theorem frame_capability_errors (element : GstElement) (b : Bool)
    (hflag : (findPropertyIn element.props "enable-last-sample" = none ∧
              b = false) ∨
             ((findPropertyIn element.props "enable-last-sample").isSome = true ∧
              propertyValue element.props "enable-last-sample" = GValue.vBool b)) :
    (FrameOutcome.isErr (get_last_frame_on_element element) = true ↔ b = false) ∧
    (b = true →
      get_last_frame_on_element element =
        FrameOutcome.ok (propertySample element.props "last-sample")) := by
  have he : (if (findPropertyIn element.props "enable-last-sample").isSome
             then propertyBool element.props "enable-last-sample"
             else false) = b := by
    rcases hflag with ⟨habs, hb⟩ | ⟨hsome, hval⟩
    · rw [habs]
      simp [hb]
    · rw [if_pos hsome]
      simp [propertyBool, hval]
  constructor
  · unfold get_last_frame_on_element
    rw [he]
    cases b <;> simp [FrameOutcome.isErr]
  · intro hb
    unfold get_last_frame_on_element
    rw [he, hb]
    rfl

theorem frame_capability_errors_witness :
    (FrameOutcome.isErr (get_last_frame_on_element sinkEl) = true ↔
      (true : Bool) = false) ∧
    ((true : Bool) = true →
      get_last_frame_on_element sinkEl =
        FrameOutcome.ok (propertySample sinkEl.props "last-sample")) :=
  frame_capability_errors sinkEl true (Or.inr ⟨rfl, rfl⟩)

/-- C6: for every attribute handle, setting from a string that parses in
the handle's declared type and then reading the same handle yields exactly
the parsed value, and the canonical value comparison used by the
`Property … equals …` step accepts it. -/
theorem set_get_roundtrip (props : GProps) (name : String) (t : GType)
    (value : String) (v : GValue)
    (hfind : findPropertyIn props name = some ⟨name, t⟩)
    (hparse : deserialize value t = some v) :
    propertyValue (setPropertyFromStr props name value) name = v ∧
    valueCompareEq v (propertyValue (setPropertyFromStr props name value) name) =
      true := by
  have h1 := setPropertyFromStr_propertyValue props name value t v hfind hparse
  exact ⟨h1, by rw [h1]; exact valueCompareEq_refl_of_deserialize value t v hparse⟩

theorem set_get_roundtrip_witness :
    propertyValue (setPropertyFromStr muteProps "mute" "true") "mute" =
      GValue.vBool true ∧
    valueCompareEq (GValue.vBool true)
      (propertyValue (setPropertyFromStr muteProps "mute" "true") "mute") = true :=
  set_get_roundtrip muteProps "mute" GType.tBool "true" (GValue.vBool true) rfl rfl

/-- C7: once activation has happened (the first call did not itself abort
as a double activation), a second call to `activate_validate` aborts on
the `Validate has already been activated` debug assertion. -/
theorem activate_twice_panics (w : World)
    (h : (activate_validate w).1 ≠ ActivateOutcome.panicAlready) :
    (activate_validate (activate_validate w).2).1 =
      ActivateOutcome.panicAlready := by
  by_cases hr : w.validate.runner.isSome
  · exact absurd (activate_validate_some w hr) h
  · apply activate_validate_some
    rw [activate_validate_inserts w (by simpa using hr)]
    rfl

theorem activate_twice_panics_witness :
    (activate_validate (activate_validate World.new).2).1 =
      ActivateOutcome.panicAlready :=
  activate_twice_panics World.new (by decide)

/-- C8: with a runner installed, the no-reports assertion passes exactly
when the report count is zero and otherwise aborts with the full formatted
report summary; with no runner installed it aborts with the
`Validate hasn't been activated` assertion. -/
theorem validate_reports_assertion (w : World) (r : Runner)
    (h : w.validate.runner = some r) :
    ((validate_no_reports w = AssertOutcome.ok ↔ r.reportsCount = 0) ∧
     (r.reportsCount ≠ 0 →
       validate_no_reports w =
         AssertOutcome.panicReports ("Reported issues: " ++ r.printf))) ∧
    (∀ w2 : World, w2.validate.runner = none →
      validate_no_reports w2 =
        AssertOutcome.panicNotActivated "Validate hasn't been activated") := by
  constructor
  · unfold validate_no_reports
    rw [h]
    dsimp only
    by_cases hc : r.reportsCount = 0
    · rw [if_pos hc]
      exact ⟨⟨fun _ => hc, fun _ => rfl⟩, fun hn => absurd hc hn⟩
    · rw [if_neg hc]
      refine ⟨⟨fun he => ?_, fun hz => absurd hz hc⟩, fun _ => rfl⟩
      simp at he
  · intro w2 h2
    unfold validate_no_reports
    rw [h2]

theorem validate_reports_assertion_witness :
    validate_no_reports wRunner =
      AssertOutcome.panicReports ("Reported issues: " ++ runnerTwo.printf) ∧
    validate_no_reports World.new =
      AssertOutcome.panicNotActivated "Validate hasn't been activated" :=
  ⟨(validate_reports_assertion wRunner runnerTwo rfl).1.2 (by decide),
   (validate_reports_assertion wRunner runnerTwo rfl).2 World.new rfl⟩

/-- C9: when the drain loop's first terminating bus message is an error,
the error is logged and the loop exits, the final state change to Stopped
is still issued, and the call still succeeds (the observed error message
is not propagated as a failure of the drain). -/
theorem drain_error_not_propagated (w : World) (pl : Pipeline) (v : Bool)
    (seq : Nat)
    (hw : w.pipeline = some pl) (hne : pl.currentState ≠ GstState.null)
    (hbus : drainBus pl.busMessages = some true)
    (hset : pl.setStateSucceeds GstState.null = true) :
    (set_pipeline_state w v seq "stop").result = StepResult.ok ∧
    (set_pipeline_state w v seq "stop").errorLogged = true ∧
    (set_pipeline_state w v seq "stop").setStateIssued = some GstState.null := by
  have hfull : set_pipeline_state w v seq "stop" =
      ⟨StepResult.ok,
       (if v then [⟨EventKind.flushStart, seq + 1⟩, ⟨EventKind.flushStop, seq⟩]
        else []) ++ [⟨EventKind.eos, seq⟩],
       true, true, some GstState.null⟩ := by
    unfold set_pipeline_state
    rw [hw]
    have hsf : stateFromName "stop" = some GstState.null := rfl
    rw [hsf]
    dsimp only
    rw [if_pos rfl, if_neg hne, hbus]
    dsimp only
    rw [if_pos hset]
  exact ⟨by rw [hfull], by rw [hfull], by rw [hfull]⟩

theorem drain_error_not_propagated_witness :
    (set_pipeline_state wErr true 0 "stop").result = StepResult.ok ∧
    (set_pipeline_state wErr true 0 "stop").errorLogged = true ∧
    (set_pipeline_state wErr true 0 "stop").setStateIssued =
      some GstState.null :=
  drain_error_not_propagated wErr plErr true 0 rfl (by decide) rfl rfl

/-- C10: with no pipeline configured, every pipeline-needing operation
(state transition, property resolution, frame sampling, and — when it is
the run's first activation — monitor activation) returns the recoverable
`Pipeline not configured yet` error rather than succeeding or aborting. -/
theorem no_pipeline_yields_error (w : World) (v : Bool) (seq : Nat)
    (state propname elementName : String)
    (hp : w.pipeline = none) :
    (set_pipeline_state w v seq state).result =
      StepResult.err "Pipeline not configured yet" ∧
    find_element_property w propname =
      ResolveResult.err "Pipeline not configured yet" ∧
    get_last_frame w elementName =
      FrameOutcome.err "Pipeline not configured yet" ∧
    (w.validate.runner = none →
      (activate_validate w).1 =
        ActivateOutcome.err "Pipeline not configured yet") := by
  refine ⟨?_, ?_, ?_, ?_⟩
  · unfold set_pipeline_state
    rw [hp]
  · unfold find_element_property
    rw [hp]
  · unfold get_last_frame
    rw [hp]
  · intro hr
    unfold activate_validate
    rw [if_neg (by simp [hr])]
    dsimp only
    rw [hp]

theorem no_pipeline_yields_error_witness :
    (set_pipeline_state World.new true 0 "play").result =
      StepResult.err "Pipeline not configured yet" ∧
    find_element_property World.new "videosink::volume" =
      ResolveResult.err "Pipeline not configured yet" ∧
    get_last_frame World.new "sink" =
      FrameOutcome.err "Pipeline not configured yet" ∧
    (World.new.validate.runner = none →
      (activate_validate World.new).1 =
        ActivateOutcome.err "Pipeline not configured yet") :=
  no_pipeline_yields_error World.new true 0 "play" "videosink::volume" "sink" rfl

end GstCucumber
